import Mathlib

/-!
Shallow embedding of the turn/interruption state machine, audio pacer and
tool-call dispatcher of `client_api/client/realtime_client.py`, and of the
local VAD gate of `main.py`, from the openai-realtime-python repository.

Conventions of the embedding:
* Audio byte strings are `List Nat` (one entry per byte); base64 transport
  encoding/decoding is elided, events carry the decoded payload.
* Wall-clock timestamps (`asyncio.get_event_loop().time()`, `time.time()`)
  are `ℚ`; Python float arithmetic on them is modelled exactly.
* A `json.loads` call on tool arguments is modelled by its outcome: events
  carry `Option (List (String × String))`, `none` standing for a string
  that fails to parse, `some kvs` for a parsed flat JSON object.
* Python exceptions that escape `handle_messages` (the final `raise` in
  its `except` clause) are modelled with `Except HandlerError`.
* The external retrieval collaborator (`utils.rag_pipeline`) is a
  parameter `rag : String → String`, per the spec's collaborator interface
  `lookup(query : str) → str`.
* User callbacks (`on_text_delta`, `on_audio_delta`, `on_interrupt`) are
  modelled by presence flags plus explicit logs of what was delivered to
  them (`played`, `textOut`, `interruptCalls`).
-/

/-- Outbound protocol messages sent over the websocket that the embedded
fragment produces (`response.cancel`, `conversation.item.truncate`,
`conversation.item.create` with a `function_call_output` item, and
`response.create`). -/
inductive Msg where
  | responseCancel
  | itemTruncate (itemId : String) (contentIndex : Nat) (audioEndMs : Nat)
  | functionCallOutput (callId : String) (output : String)
  | responseCreate
  deriving DecidableEq, Repr

/-- The mutable fields of `RealtimeClient` that the message handler reads
and writes, plus the presence flags of the three user callbacks. -/
structure ClientState where
  currentResponseId : Option String
  currentItemId : Option String
  isResponding : Bool
  audioBuffer : List Nat
  lastAudioTime : ℚ
  currentContentIndex : Nat
  currentAudioSampleCount : Nat
  hasOnTextDelta : Bool
  hasOnAudioDelta : Bool
  hasOnInterrupt : Bool
  deriving DecidableEq, Repr

/-- `self._min_audio_chunk_size = 3200`. -/
def minAudioChunkSize : Nat := 3200

/-- `self._playback_rate = 0.95`. -/
def playbackRate : ℚ := 95 / 100

/-- PCM16 at 24 kHz: 48000 bytes per second (source comment in the
audio-delta handler). -/
def bytesPerSecond : ℚ := 48000

/-- The state set up by `RealtimeClient.__init__`: no current response or
item, not responding, empty audio buffer, `_last_audio_time = 0`,
`_current_content_index = 0`, `_current_audio_sample_count = 0`. -/
def initialState (textCb audioCb interruptCb : Bool) : ClientState :=
  { currentResponseId := none
    currentItemId := none
    isResponding := false
    audioBuffer := []
    lastAudioTime := 0
    currentContentIndex := 0
    currentAudioSampleCount := 0
    hasOnTextDelta := textCb
    hasOnAudioDelta := audioCb
    hasOnInterrupt := interruptCb }

/-- Inbound events dispatched by `handle_messages`. `audioDelta` carries the
base64-decoded payload and the event-loop time at which the event is
processed; `functionCallArgumentsDone` carries the result of
`json.loads(event["arguments"])` as described in the module header. -/
inductive Event where
  | errorEvent (message : String)
  | responseCreated (responseId : Option String)
  | outputItemAdded (itemId : Option String)
  | responseDone
  | speechStarted
  | speechStopped
  | textDelta (delta : String)
  | audioDelta (bytes : List Nat) (time : ℚ)
  | functionCallArgumentsDone (callId : String) (name : String)
      (arguments : Option (List (String × String)))
  deriving DecidableEq, Repr

/-- Exceptions that escape an event handler; `handle_messages` prints them
and re-raises, so they terminate the message loop. -/
inductive HandlerError where
  | jsonDecodeFailure
  | keyMissing (key : String)
  deriving DecidableEq, Repr

/-- The observable outcome of handling one (or several) events: the new
client state, the outbound messages sent, the audio chunks handed to
`on_audio_delta`, the text deltas handed to `on_text_delta`, and the number
of `on_interrupt` invocations. -/
structure StepOut where
  state : ClientState
  sent : List Msg
  played : List (List Nat)
  textOut : List String
  interruptCalls : Nat
  deriving DecidableEq, Repr

/-- `RealtimeClient.handle_interruption`: returns (skipping the sends) when
`_is_responding` is false; otherwise sends `response.cancel` when
`_current_response_id` is truthy, then (via `truncate_response`) sends
`conversation.item.truncate` with `_current_item_id`,
`_current_content_index` and `audio_end_ms =
(_current_audio_sample_count * 1000) // 24000` when `_current_item_id` is
truthy, then clears `_is_responding`, `_current_response_id` and
`_current_item_id`. -/
def handleInterruption (s : ClientState) : ClientState × List Msg :=
  if s.isResponding then
    let cancelMsgs : List Msg :=
      if s.currentResponseId.isSome then [Msg.responseCancel] else []
    let truncMsgs : List Msg :=
      match s.currentItemId with
      | some i =>
          [Msg.itemTruncate i s.currentContentIndex
            (s.currentAudioSampleCount * 1000 / 24000)]
      | none => []
    ({ s with isResponding := false
              currentResponseId := none
              currentItemId := none },
     cancelMsgs ++ truncMsgs)
  else (s, [])

/-- One iteration of the dispatch in `RealtimeClient.handle_messages`,
processing a single inbound event against the client state. -/
def handleEvent (rag : String → String) (s : ClientState) :
    Event → Except HandlerError StepOut
  | .errorEvent _ => .ok ⟨s, [], [], [], 0⟩
  | .responseCreated rid =>
      .ok ⟨{ s with currentResponseId := rid
                    isResponding := true
                    audioBuffer := [] }, [], [], [], 0⟩
  | .outputItemAdded iid =>
      .ok ⟨{ s with currentItemId := iid }, [], [], [], 0⟩
  | .responseDone =>
      let flush := s.audioBuffer ≠ [] ∧ s.hasOnAudioDelta = true
      .ok ⟨{ s with audioBuffer := if flush then [] else s.audioBuffer
                    isResponding := false
                    currentResponseId := none
                    currentItemId := none },
           [], if flush then [s.audioBuffer] else [], [], 0⟩
  | .speechStarted =>
      let (s2, msgs) := if s.isResponding then handleInterruption s else (s, [])
      .ok ⟨s2, msgs, [], [], if s.hasOnInterrupt then 1 else 0⟩
  | .speechStopped => .ok ⟨s, [], [], [], 0⟩
  | .textDelta d =>
      .ok ⟨s, [], [], if s.hasOnTextDelta then [d] else [], 0⟩
  | .audioDelta bytes t =>
      if s.hasOnAudioDelta then
        let buf := s.audioBuffer ++ bytes
        let timeSinceLast := t - s.lastAudioTime
        let chunkDuration : ℚ := (buf.length : ℚ) / bytesPerSecond
        let targetDelay := chunkDuration * playbackRate
        if minAudioChunkSize ≤ buf.length ∧ targetDelay ≤ timeSinceLast then
          .ok ⟨{ s with audioBuffer := []
                        lastAudioTime := t
                        currentAudioSampleCount :=
                          s.currentAudioSampleCount + buf.length / 2 },
               [], [buf], [], 0⟩
        else
          .ok ⟨{ s with audioBuffer := buf }, [], [], [], 0⟩
      else .ok ⟨s, [], [], [], 0⟩
  | .functionCallArgumentsDone callId _name arguments =>
      match arguments with
      | none => .error .jsonDecodeFailure
      | some kvs =>
          match kvs.lookup "query" with
          | none => .error (.keyMissing "query")
          | some q =>
              .ok ⟨s, [Msg.functionCallOutput callId (rag q),
                       Msg.responseCreate], [], [], 0⟩

/-- Concatenation of two step outcomes (second state wins, logs append). -/
def combineOut (a b : StepOut) : StepOut :=
  ⟨b.state, a.sent ++ b.sent, a.played ++ b.played,
   a.textOut ++ b.textOut, a.interruptCalls + b.interruptCalls⟩

/-- The `handle_messages` loop over a finite list of inbound events,
stopping at the first escaping exception (which kills the loop). -/
def handleEvents (rag : String → String) (s : ClientState) :
    List Event → Except HandlerError StepOut
  | [] => .ok ⟨s, [], [], [], 0⟩
  | e :: es =>
      match handleEvent rag s e with
      | .error err => .error err
      | .ok r =>
          match handleEvents rag r.state es with
          | .error err => .error err
          | .ok rest => .ok (combineOut r rest)

/-!
Local VAD gate of `main.py` (`is_silent` and the loop body of
`record_and_stream_audio`). A microphone frame is a `List Int` of signed
16-bit samples together with the `time.time()` timestamp at which the loop
processes it.
-/

/-- `SILENCE_DURATION = 0.3` seconds. -/
def silenceDuration : ℚ := 3 / 10

/-- Wrap an integer into the int16 range, as numpy's `np.square` does on an
`int16` array (the product stays `int16` and overflows modulo 2^16). -/
def wrap16 (z : Int) : Int := (z + 32768) % 65536 - 32768

/-- `is_silent`: `rms = sqrt(mean(square(frombuffer(data, int16))))` and the
result is `rms < SILENCE_THRESHOLD` with `SILENCE_THRESHOLD = 250`.
`np.square` wraps each square into int16; `np.mean` then averages the
wrapped squares in float64 (modelled exactly over ℚ). Since both sides of
the comparison are nonnegative when the mean is, `sqrt(mean) < 250` is
equivalent to `mean < 62500`, i.e. `sumSq < 62500 * n`; when the mean is
negative (overflow) or the frame is empty, `sqrt` yields NaN and the
comparison is false. -/
def is_silent (samples : List Int) : Bool :=
  let sumSq := (samples.map fun x => wrap16 (x * x)).sum
  decide (0 < samples.length) && decide (0 ≤ sumSq) &&
    decide (sumSq < 62500 * samples.length)

/-- The mutable state of `record_and_stream_audio` and its globals:
`is_speaking`, `is_processing`, `is_user_speaking`, `silence_start`,
`audio_buffer`, plus a log of buffers handed off to `process_audio`. -/
structure VadState where
  is_speaking : Bool
  is_processing : Bool
  is_user_speaking : Bool
  silence_start : Option ℚ
  audio_buffer : List (List Int)
  handed_off : List (List (List Int))
  deriving DecidableEq, Repr

/-- The VAD state at entry of `record_and_stream_audio` (globals start
false, `silence_start = None`, `audio_buffer = []`). -/
def vadInitial : VadState :=
  { is_speaking := false
    is_processing := false
    is_user_speaking := false
    silence_start := none
    audio_buffer := []
    handed_off := [] }

/-- One iteration of the `while True` loop of `record_and_stream_audio`:
read frame `data` at time `t`, classify it with `is_silent`, update the
speaking/silence-hysteresis state (ending the utterance when silence has
lasted strictly longer than `SILENCE_DURATION`, spawning `process_audio`
on the accumulated buffer only when `is_processing` is false, and clearing
the buffer either way), and finally append the frame to the utterance
buffer when still speaking. -/
def vadStep (s : VadState) (data : List Int) (t : ℚ) : VadState :=
  let s1 :=
    if is_silent data then
      if s.is_speaking then
        match s.silence_start with
        | none => { s with silence_start := some t }
        | some t0 =>
            if silenceDuration < t - t0 then
              { s with is_speaking := false
                       is_user_speaking := false
                       is_processing := true
                       handed_off :=
                         if s.is_processing then s.handed_off
                         else s.handed_off ++ [s.audio_buffer]
                       audio_buffer := []
                       silence_start := none }
            else s
      else s
    else
      if s.is_speaking then { s with silence_start := none }
      else { s with silence_start := none
                    is_speaking := true
                    is_user_speaking := true }
  if s1.is_speaking then { s1 with audio_buffer := s1.audio_buffer ++ [data] }
  else s1

/-- Iterated `vadStep` over a list of timestamped frames. -/
def vadRun (s : VadState) : List (List Int × ℚ) → VadState
  | [] => s
  | f :: fs => vadRun (vadStep s f.1 f.2) fs

/-!
Concrete data used to instantiate the theorems below.
-/

/-- A trivial stand-in for the external retrieval collaborator. -/
def rag0 : String → String := fun _ => ""

/-- A retrieval collaborator that answers every query with "ANSWER". -/
def ragAns : String → String := fun _ => "ANSWER"

/-- Client state in the middle of a response: responding, with a current
response id, item id and 48000 samples already played. -/
def c1State : ClientState :=
  { initialState true true true with
      isResponding := true
      currentResponseId := some "r1"
      currentItemId := some "i1"
      currentAudioSampleCount := 48000 }

/-- Client state carrying a leftover sample count from an earlier
response. -/
def c2State : ClientState :=
  { initialState true true true with currentAudioSampleCount := 1600 }

/-- One small (under-threshold) delta, then end of response. -/
def c4Events : List Event :=
  [Event.audioDelta (List.replicate 10 0) 100, Event.responseDone]

/-- Client state mid-response with 3000 bytes already buffered. -/
def c5State : ClientState :=
  { initialState true true true with audioBuffer := List.replicate 3000 1 }

/-- The three deltas of the pacing scenario: 1000, 1000 and 1500 bytes,
all processed at the same event-loop time 100. -/
def c5Events : List Event :=
  [Event.audioDelta (List.replicate 1000 7) 100,
   Event.audioDelta (List.replicate 1000 7) 100,
   Event.audioDelta (List.replicate 1500 7) 100]

/-- A VAD state in mid-utterance with one buffered frame and no pending
silence run. -/
def c8State : VadState :=
  { vadInitial with is_speaking := true, audio_buffer := [[5]] }

/-- A VAD state in mid-utterance whose silence run started at time 20. -/
def c8SilenceState : VadState :=
  { vadInitial with
      is_speaking := true
      silence_start := some 20
      audio_buffer := [[5], [6]] }

/-- Like c8SilenceState, but while the previous utterance is still being
processed (is_processing is true). -/
def c8ProcessingState : VadState :=
  { vadInitial with
      is_speaking := true
      is_processing := true
      is_user_speaking := true
      silence_start := some 20
      audio_buffer := [[5], [6]] }

/-!
Helper lemmas about the audio pacer, shared by the conservation and
sample-count theorems.
-/

/-- One audio-delta step with the playback callback present: no messages
are sent, the released chunks plus the remaining buffer hold exactly the
old buffer followed by the new bytes, and the sample count grows by half
the length of each released chunk. -/
theorem handleEvent_audioDelta_spec (rag : String → String) (s : ClientState)
    (d : List Nat) (t : ℚ) (hcb : s.hasOnAudioDelta = true) :
    ∃ st pl, handleEvent rag s (.audioDelta d t) = .ok ⟨st, [], pl, [], 0⟩ ∧
      st.hasOnAudioDelta = true ∧
      pl.flatten ++ st.audioBuffer = s.audioBuffer ++ d ∧
      st.currentAudioSampleCount =
        s.currentAudioSampleCount + (pl.map fun c => c.length / 2).sum := by
  simp only [handleEvent, hcb, if_true]
  split
  · exact ⟨_, _, rfl, rfl, by simp, by simp⟩
  · exact ⟨_, _, rfl, rfl, by simp, by simp⟩

/-- The response-done step with the playback callback present: the chunks
it releases are exactly the remaining buffer, and the sample count is not
touched. -/
theorem handleEvent_responseDone_spec (rag : String → String)
    (st : ClientState) (hcb : st.hasOnAudioDelta = true) :
    ∃ st2 pl, handleEvent rag st .responseDone = .ok ⟨st2, [], pl, [], 0⟩ ∧
      pl.flatten = st.audioBuffer ∧
      st2.currentAudioSampleCount = st.currentAudioSampleCount := by
  refine ⟨_, _, rfl, ?_, rfl⟩
  by_cases hb : st.audioBuffer = []
  · simp [hb]
  · simp [hb, hcb]

/-- Running the message loop over audio-delta events only: it never fails,
sends nothing, keeps the callback flag, conserves bytes between released
chunks and the remaining buffer, and accounts the sample count by half the
length of each released chunk. -/
theorem handleEvents_audioDeltas_spec (rag : String → String)
    (deltas : List (List Nat × ℚ)) :
    ∀ s : ClientState, s.hasOnAudioDelta = true →
    ∃ r : StepOut,
      handleEvents rag s (deltas.map fun d => Event.audioDelta d.1 d.2) = .ok r ∧
      r.state.hasOnAudioDelta = true ∧
      r.sent = [] ∧
      r.played.flatten ++ r.state.audioBuffer =
        s.audioBuffer ++ (deltas.map Prod.fst).flatten ∧
      r.state.currentAudioSampleCount =
        s.currentAudioSampleCount + (r.played.map fun c => c.length / 2).sum := by
  induction deltas with
  | nil =>
      intro s hcb
      exact ⟨⟨s, [], [], [], 0⟩, rfl, hcb, rfl, by simp, by simp⟩
  | cons d ds ih =>
      intro s hcb
      obtain ⟨st, pl, hstep, hcb2, hflat, hcount⟩ :=
        handleEvent_audioDelta_spec rag s d.1 d.2 hcb
      obtain ⟨r, hrun, hcb3, hsent, hflat2, hcount2⟩ := ih st hcb2
      refine ⟨combineOut ⟨st, [], pl, [], 0⟩ r, ?_, hcb3, ?_, ?_, ?_⟩
      · simp only [List.map_cons, handleEvents, hstep, hrun]
      · simp [combineOut, hsent]
      · show (pl ++ r.played).flatten ++ r.state.audioBuffer = _
        rw [List.flatten_append, List.append_assoc, hflat2,
          ← List.append_assoc, hflat, List.map_cons, List.flatten_cons,
          List.append_assoc]
      · show r.state.currentAudioSampleCount = _
        rw [hcount2, hcount]
        simp [combineOut, Nat.add_assoc]

/-- Running audio-delta events and then the response-done event: the
concatenation of everything handed to the playback callback is the old
buffer followed by all delta payloads. -/
theorem handleEvents_deltas_then_done_spec (rag : String → String)
    (deltas : List (List Nat × ℚ)) :
    ∀ s : ClientState, s.hasOnAudioDelta = true →
    ∃ r : StepOut,
      handleEvents rag s
        ((deltas.map fun d => Event.audioDelta d.1 d.2) ++ [Event.responseDone]) =
        .ok r ∧
      r.played.flatten = s.audioBuffer ++ (deltas.map Prod.fst).flatten := by
  induction deltas with
  | nil =>
      intro s hcb
      obtain ⟨st2, pl, hstep, hflat, _⟩ := handleEvent_responseDone_spec rag s hcb
      refine ⟨combineOut ⟨st2, [], pl, [], 0⟩ ⟨st2, [], [], [], 0⟩, ?_, ?_⟩
      · simp only [List.map_nil, List.nil_append, handleEvents, hstep]
      · simp [combineOut, hflat]
  | cons d ds ih =>
      intro s hcb
      obtain ⟨st, pl, hstep, hcb2, hflat, _⟩ :=
        handleEvent_audioDelta_spec rag s d.1 d.2 hcb
      obtain ⟨r, hrun, hflat2⟩ := ih st hcb2
      refine ⟨combineOut ⟨st, [], pl, [], 0⟩ r, ?_, ?_⟩
      · simp only [List.map_cons, List.cons_append, handleEvents, hstep,
          List.append_eq, hrun]
      · show (pl ++ r.played).flatten = _
        rw [List.flatten_append, hflat2, ← List.append_assoc, hflat,
          List.map_cons, List.flatten_cons, List.append_assoc]

/-- C1: When an input_audio_buffer.speech_started event arrives while the
client is responding and the current response id and item id are recorded,
the client sends, in order, exactly one response.cancel message (addressed
to the response identified by currentResponseId) and then exactly one
conversation.item.truncate message carrying the current item id, the
current content index, and audio_end_ms = playedSampleCount * 1000 / 24000
(integer division) at the moment of interruption, and then clears
isResponding, currentResponseId and currentItemId. -/
theorem speech_started_interrupts_active_response (rag : String → String)
    (s : ClientState) (rid iid : String)
    (hresp : s.isResponding = true) (hrid : s.currentResponseId = some rid)
    (hiid : s.currentItemId = some iid) :
    handleEvent rag s .speechStarted =
      .ok ⟨{ s with isResponding := false
                    currentResponseId := none
                    currentItemId := none },
           [Msg.responseCancel,
            Msg.itemTruncate iid s.currentContentIndex
              (s.currentAudioSampleCount * 1000 / 24000)],
           [], [], if s.hasOnInterrupt then 1 else 0⟩ := by
  simp [handleEvent, handleInterruption, hresp, hrid, hiid]

theorem speech_started_interrupts_active_response_witness :
    handleEvent rag0 c1State .speechStarted =
      .ok ⟨{ c1State with isResponding := false
                          currentResponseId := none
                          currentItemId := none },
           [Msg.responseCancel, Msg.itemTruncate "i1" 0 2000],
           [], [], 1⟩ :=
  speech_started_interrupts_active_response rag0 c1State "r1" "i1" rfl rfl rfl

/-- C2: a response.created event records the new response id and clears the
inbound audio buffer, but — contradicting the claim and the
truncate_response docstring, which needs the count to reflect what was
played of the current item — it does NOT reset the played sample count:
processing it in a state holding 1600 leftover samples leaves 1600, not
0. -/
theorem response_created_keeps_stale_sample_count :
    (handleEvent rag0 c2State (.responseCreated (some "r2"))).map
        (fun r => (r.state.currentResponseId, r.state.isResponding,
                   r.state.audioBuffer, r.state.currentAudioSampleCount)) =
      .ok (some "r2", true, [], 1600) ∧ (1600 : Nat) ≠ 0 := by
  exact ⟨rfl, by decide⟩

/-- C9: an input_audio_buffer.speech_started event arriving while
isResponding is false leaves interruption handling a no-op: no
response.cancel or conversation.item.truncate is sent (no message at all)
and the whole client state is unchanged. -/
theorem speech_started_while_idle_is_no_op (rag : String → String)
    (s : ClientState) (h : s.isResponding = false) :
    handleEvent rag s .speechStarted =
      .ok ⟨s, [], [], [], if s.hasOnInterrupt then 1 else 0⟩ := by
  simp [handleEvent, h]

theorem speech_started_while_idle_is_no_op_witness :
    handleEvent rag0 (initialState true true true) .speechStarted =
      .ok ⟨initialState true true true, [], [], [], 1⟩ :=
  speech_started_while_idle_is_no_op rag0 (initialState true true true) rfl

/-- C10: every input_audio_buffer.speech_started event invokes the
user-supplied on_interrupt callback exactly once when it is present,
whether or not a response is active. -/
theorem speech_started_always_fires_interrupt_callback
    (rag : String → String) (s : ClientState) (h : s.hasOnInterrupt = true) :
    (handleEvent rag s .speechStarted).map (fun r => r.interruptCalls) =
      .ok 1 := by
  cases hr : s.isResponding <;>
    simp [handleEvent, handleInterruption, Except.map, h, hr]

theorem speech_started_always_fires_interrupt_callback_witness :
    (handleEvent rag0 (initialState false false true) .speechStarted).map
        (fun r => r.interruptCalls) = .ok 1 :=
  speech_started_always_fires_interrupt_callback rag0
    (initialState false false true) rfl

/-- C3: with the playback callback supplied and starting from the empty
per-response buffer, any sequence of response.audio.delta events followed
by response.done passes exactly the concatenation of the delta payloads to
the playback callback — no byte dropped, none duplicated — even when the
total is below the 3200-byte threshold, because response.done flushes the
remainder. -/
theorem audio_bytes_conserved_through_response (rag : String → String)
    (s : ClientState) (deltas : List (List Nat × ℚ))
    (hcb : s.hasOnAudioDelta = true) (hbuf : s.audioBuffer = []) :
    (handleEvents rag s
        ((deltas.map fun d => Event.audioDelta d.1 d.2) ++
          [Event.responseDone])).map
      (fun r => r.played.flatten) = .ok (deltas.map Prod.fst).flatten := by
  obtain ⟨r, hrun, hflat⟩ :=
    handleEvents_deltas_then_done_spec rag deltas s hcb
  rw [hrun]
  simp [Except.map, hflat, hbuf]

theorem audio_bytes_conserved_through_response_witness :
    (handleEvents rag0 (initialState true true true)
        ((([(List.replicate 1000 3, (50 : ℚ))]).map
            fun d => Event.audioDelta d.1 d.2) ++
          [Event.responseDone])).map
      (fun r => r.played.flatten) =
      .ok (([(List.replicate 1000 3, (50 : ℚ))]).map Prod.fst).flatten :=
  audio_bytes_conserved_through_response rag0 (initialState true true true)
    [(List.replicate 1000 3, (50 : ℚ))] rfl rfl

/-- C4 counterexample: a single 10-byte delta stays buffered (below the
3200-byte threshold, no release), then response.done force-flushes those
10 bytes to the playback callback; 10 bytes in total have now been
released, yet playedSampleCount is still 0 and not 10 / 2 = 5: the forced
flush does not update playedSampleCount. -/
theorem done_flush_leaves_sample_count_behind :
    (handleEvents rag0 (initialState true true true) c4Events).map
        (fun r => ((r.played.map List.length).sum,
                   r.state.currentAudioSampleCount)) =
      .ok (10, 0) ∧ (0 : Nat) ≠ 10 / 2 :=
  ⟨rfl, by decide⟩

/-- C4 as amended: across any sequence of response.audio.delta events
(with the playback callback supplied), after every pacer release the
played sample count equals its starting value plus the sum of
chunkBytes / 2 (integer division) over the chunks released so far; the
forced flush performed by response.done hands the remainder to the
playback callback WITHOUT updating the played sample count. -/
theorem sample_count_tracks_threshold_releases :
    (∀ (rag : String → String) (s : ClientState)
        (deltas : List (List Nat × ℚ)), s.hasOnAudioDelta = true →
      ∃ r : StepOut,
        handleEvents rag s (deltas.map fun d => Event.audioDelta d.1 d.2) =
          .ok r ∧
        r.state.currentAudioSampleCount =
          s.currentAudioSampleCount +
            (r.played.map fun c => c.length / 2).sum) ∧
    (∀ (rag : String → String) (s : ClientState),
      (handleEvent rag s Event.responseDone).map
        (fun r => r.state.currentAudioSampleCount) =
        .ok s.currentAudioSampleCount) := by
  constructor
  · intro rag s deltas hcb
    obtain ⟨r, hrun, _, _, _, hcount⟩ :=
      handleEvents_audioDeltas_spec rag deltas s hcb
    exact ⟨r, hrun, hcount⟩
  · intro rag s
    rfl

theorem sample_count_tracks_threshold_releases_witness :
    ∃ r : StepOut,
      handleEvents rag0 c2State
          (([(List.replicate 3200 0, (100 : ℚ))]).map
            fun d => Event.audioDelta d.1 d.2) = .ok r ∧
      r.state.currentAudioSampleCount =
        c2State.currentAudioSampleCount +
          (r.played.map fun c => c.length / 2).sum :=
  sample_count_tracks_threshold_releases.1 rag0 c2State
    [(List.replicate 3200 0, (100 : ℚ))] rfl

/-- The audio-delta handler releases the (appended) buffer when the
threshold and pacing conditions both hold. -/
theorem audioDelta_release (rag : String → String) (s : ClientState)
    (d : List Nat) (t : ℚ) (hcb : s.hasOnAudioDelta = true)
    (hcond : minAudioChunkSize ≤ (s.audioBuffer ++ d).length ∧
      ((s.audioBuffer ++ d).length : ℚ) / bytesPerSecond * playbackRate ≤
        t - s.lastAudioTime) :
    handleEvent rag s (.audioDelta d t) =
      .ok ⟨{ s with audioBuffer := []
                    lastAudioTime := t
                    currentAudioSampleCount :=
                      s.currentAudioSampleCount +
                        (s.audioBuffer ++ d).length / 2 },
           [], [s.audioBuffer ++ d], [], 0⟩ := by
  simp only [handleEvent, hcb, if_true]
  rw [if_pos hcond]

/-- The audio-delta handler only appends to the buffer when the threshold
and pacing conditions do not both hold. -/
theorem audioDelta_no_release (rag : String → String) (s : ClientState)
    (d : List Nat) (t : ℚ) (hcb : s.hasOnAudioDelta = true)
    (hcond : ¬(minAudioChunkSize ≤ (s.audioBuffer ++ d).length ∧
      ((s.audioBuffer ++ d).length : ℚ) / bytesPerSecond * playbackRate ≤
        t - s.lastAudioTime)) :
    handleEvent rag s (.audioDelta d t) =
      .ok ⟨{ s with audioBuffer := s.audioBuffer ++ d }, [], [], [], 0⟩ := by
  simp only [handleEvent, hcb, if_true]
  rw [if_neg hcond]

/-- C5: with the playback callback supplied, each response.audio.delta
appends its decoded bytes to the audio buffer and the buffer is released
to the playback callback and emptied exactly when both the 3200-byte
threshold and the pacing delay (bufferedBytes / 48000) * 0.95 since the
last release hold; in the concrete scenario, deltas of 1000, 1000 and
1500 bytes arriving at the same event-loop time 100 cause no release
until the third delta, after which all 3500 bytes are released as a
single chunk and playedSampleCount becomes 1750. -/
theorem audio_pacer_release_condition_and_scenario :
    (∀ (rag : String → String) (s : ClientState) (d : List Nat) (t : ℚ),
      s.hasOnAudioDelta = true →
      (minAudioChunkSize ≤ (s.audioBuffer ++ d).length ∧
          ((s.audioBuffer ++ d).length : ℚ) / bytesPerSecond * playbackRate ≤
            t - s.lastAudioTime →
        handleEvent rag s (.audioDelta d t) =
          .ok ⟨{ s with audioBuffer := []
                        lastAudioTime := t
                        currentAudioSampleCount :=
                          s.currentAudioSampleCount +
                            (s.audioBuffer ++ d).length / 2 },
               [], [s.audioBuffer ++ d], [], 0⟩) ∧
      (¬(minAudioChunkSize ≤ (s.audioBuffer ++ d).length ∧
          ((s.audioBuffer ++ d).length : ℚ) / bytesPerSecond * playbackRate ≤
            t - s.lastAudioTime) →
        handleEvent rag s (.audioDelta d t) =
          .ok ⟨{ s with audioBuffer := s.audioBuffer ++ d },
               [], [], [], 0⟩)) ∧
    (handleEvents rag0 (initialState true true true) c5Events).map
        (fun r => (r.played.map List.length, r.state.currentAudioSampleCount,
                   r.state.audioBuffer)) = .ok ([3500], 1750, []) := by
  constructor
  · intro rag s d t hcb
    exact ⟨audioDelta_release rag s d t hcb, audioDelta_no_release rag s d t hcb⟩
  · have h1 := audioDelta_no_release rag0 (initialState true true true)
      (List.replicate 1000 7) 100 rfl
      (by norm_num [minAudioChunkSize, initialState, List.length_replicate])
    have h2 := audioDelta_no_release rag0
      { initialState true true true with
          audioBuffer :=
            (initialState true true true).audioBuffer ++ List.replicate 1000 7 }
      (List.replicate 1000 7) 100 rfl
      (by norm_num [minAudioChunkSize, initialState, List.length_replicate])
    have h3 := audioDelta_release rag0
      { initialState true true true with
          audioBuffer :=
            ((initialState true true true).audioBuffer ++
              List.replicate 1000 7) ++ List.replicate 1000 7 }
      (List.replicate 1500 7) 100 rfl
      (by norm_num [minAudioChunkSize, initialState, bytesPerSecond,
            playbackRate, List.length_append, List.length_replicate])
    simp only [c5Events, handleEvents, h1, h2, h3, combineOut, Except.map]
    norm_num [initialState, List.length_replicate]

theorem audio_pacer_release_condition_and_scenario_witness :
    handleEvent rag0 c5State (.audioDelta (List.replicate 500 2) 50) =
      .ok ⟨{ c5State with
               audioBuffer := []
               lastAudioTime := 50
               currentAudioSampleCount :=
                 c5State.currentAudioSampleCount +
                   (c5State.audioBuffer ++ List.replicate 500 2).length / 2 },
           [], [c5State.audioBuffer ++ List.replicate 500 2], [], 0⟩ :=
  (audio_pacer_release_condition_and_scenario.1 rag0 c5State
      (List.replicate 500 2) 50 rfl).1
    (by norm_num [minAudioChunkSize, c5State, initialState, bytesPerSecond,
          playbackRate, List.length_append, List.length_replicate])

/-- C6 counterexample: a response.function_call_arguments.done event whose
arguments string fails to parse as JSON makes the handler raise: the loop
terminates with the exception (no error-string output, no message at all
is sent), rather than reporting and continuing; likewise an unknown
function name is never detected — the name is ignored and dispatch always
goes to the retrieval pipeline, so parsed arguments without a "query" key
raise a KeyError that also kills the loop. -/
theorem malformed_tool_arguments_crash_loop :
    handleEvent rag0 (initialState true true true)
        (.functionCallArgumentsDone "c1" "lookup" none) =
      .error .jsonDecodeFailure ∧
    handleEvents rag0 (initialState true true true)
        [.functionCallArgumentsDone "c1" "lookup" none] =
      .error .jsonDecodeFailure ∧
    handleEvent rag0 (initialState true true true)
        (.functionCallArgumentsDone "c2" "unknown_tool" (some [("arg", "1")])) =
      .error (.keyMissing "query") :=
  ⟨rfl, rfl, rfl⟩

/-- C6 as amended: a tool-arguments JSON parse failure propagates as an
exception that handle_messages prints and re-raises, terminating the
message loop with no function-call output sent; the function name is
ignored entirely, so any name whose parsed arguments carry a "query" key
is dispatched to the retrieval pipeline as if known, while parsed
arguments lacking "query" raise KeyError and also terminate the loop. -/
theorem tool_call_error_paths :
    (∀ (rag : String → String) (s : ClientState) (cid nm : String),
      handleEvent rag s (.functionCallArgumentsDone cid nm none) =
        .error .jsonDecodeFailure) ∧
    (∀ (rag : String → String) (s : ClientState) (cid nm : String)
        (kvs : List (String × String)), kvs.lookup "query" = none →
      handleEvent rag s (.functionCallArgumentsDone cid nm (some kvs)) =
        .error (.keyMissing "query")) ∧
    (∀ (rag : String → String) (s : ClientState) (cid nm : String)
        (kvs : List (String × String)) (q : String),
        kvs.lookup "query" = some q →
      handleEvent rag s (.functionCallArgumentsDone cid nm (some kvs)) =
        .ok ⟨s, [Msg.functionCallOutput cid (rag q), Msg.responseCreate],
             [], [], 0⟩) := by
  refine ⟨fun rag s cid nm => rfl, fun rag s cid nm kvs h => ?_,
    fun rag s cid nm kvs q h => ?_⟩
  · simp only [handleEvent, h]
  · simp only [handleEvent, h]

theorem tool_call_error_paths_witness :
    handleEvent rag0 (initialState true true true)
        (.functionCallArgumentsDone "c9" "whatever" (some [("x", "1")])) =
      .error (.keyMissing "query") ∧
    handleEvent rag0 (initialState true true true)
        (.functionCallArgumentsDone "c9" "whatever" (some [("query", "Q")])) =
      .ok ⟨initialState true true true,
           [Msg.functionCallOutput "c9" (rag0 "Q"), Msg.responseCreate],
           [], [], 0⟩ :=
  ⟨tool_call_error_paths.2.1 rag0 (initialState true true true)
      "c9" "whatever" [("x", "1")] rfl,
   tool_call_error_paths.2.2 rag0 (initialState true true true)
      "c9" "whatever" [("query", "Q")] "Q" rfl⟩

/-- C7: a response.function_call_arguments.done event with call id "c1",
name "lookup" and arguments parsing to the object mapping "query" to "X",
when the retrieval collaborator answers "ANSWER", produces exactly one
function-call-output message with call id "c1" and output "ANSWER",
followed by exactly one response.create message, with the client state
untouched. -/
theorem tool_call_lookup_scenario (rag : String → String) (s : ClientState)
    (h : rag "X" = "ANSWER") :
    handleEvent rag s
        (.functionCallArgumentsDone "c1" "lookup" (some [("query", "X")])) =
      .ok ⟨s, [Msg.functionCallOutput "c1" "ANSWER", Msg.responseCreate],
           [], [], 0⟩ := by
  rw [← h]
  rfl

theorem tool_call_lookup_scenario_witness :
    handleEvent ragAns (initialState true true true)
        (.functionCallArgumentsDone "c1" "lookup" (some [("query", "X")])) =
      .ok ⟨initialState true true true,
           [Msg.functionCallOutput "c1" "ANSWER", Msg.responseCreate],
           [], [], 0⟩ :=
  tool_call_lookup_scenario ragAns (initialState true true true) rfl

/-- While speaking with a silence run that started at time t0, every
further silent frame within the 0.3 s hysteresis window keeps the
utterance alive: the gate stays in the speaking state, the silence-run
start is retained, the frames keep accumulating and nothing is handed
off. -/
theorem vad_short_silence_run_spec (t0 : ℚ) (frames : List (List Int × ℚ)) :
    ∀ s : VadState, s.is_speaking = true → s.silence_start = some t0 →
    (∀ f ∈ frames, is_silent f.1 = true ∧ f.2 - t0 ≤ silenceDuration) →
    (vadRun s frames).is_speaking = true ∧
    (vadRun s frames).silence_start = some t0 ∧
    (vadRun s frames).audio_buffer = s.audio_buffer ++ frames.map Prod.fst ∧
    (vadRun s frames).handed_off = s.handed_off := by
  induction frames with
  | nil =>
      intro s h1 h2 _
      exact ⟨h1, h2, by simp [vadRun], rfl⟩
  | cons f fs ih =>
      intro s h1 h2 hall
      have hf := hall f (List.mem_cons_self f fs)
      have hnl : ¬ (silenceDuration < f.2 - t0) := not_lt.mpr hf.2
      have hstep : vadStep s f.1 f.2 =
          { s with audio_buffer := s.audio_buffer ++ [f.1] } := by
        simp [vadStep, hf.1, h1, h2, hnl]
      rw [vadRun, hstep]
      obtain ⟨a, b, c, d⟩ := ih { s with audio_buffer := s.audio_buffer ++ [f.1] }
        h1 h2 (fun g hg => hall g (List.mem_cons_of_mem f hg))
      refine ⟨a, b, ?_, d⟩
      rw [c]
      simp

/-- C8 counterexample: a silent frame 0.31 s into a silence run while the
previous utterance is still being processed (is_processing true,
main.py:142-145) ends the utterance and clears the two buffered frames,
but hands nothing off for sending — handed_off stays empty and the
nonempty utterance buffer is silently discarded, falsifying the claim's
unconditional hand-off. -/
theorem long_silence_drops_buffer_when_processing :
    vadStep c8ProcessingState [0] (20 + 31 / 100) =
      { c8ProcessingState with
          is_speaking := false
          is_user_speaking := false
          audio_buffer := []
          silence_start := none } ∧
    (vadStep c8ProcessingState [0] (20 + 31 / 100)).handed_off = [] ∧
    c8ProcessingState.audio_buffer ≠ [] := by
  have hsil : is_silent [0] = true := rfl
  have hlt : silenceDuration < (31 / 100 : ℚ) := by
    norm_num [silenceDuration]
  have h1 : vadStep c8ProcessingState [0] (20 + 31 / 100) =
      { c8ProcessingState with
          is_speaking := false
          is_user_speaking := false
          audio_buffer := []
          silence_start := none } := by
    simp [vadStep, c8ProcessingState, vadInitial, hsil, hlt]
  exact ⟨h1, by rw [h1]; simp [c8ProcessingState, vadInitial], by decide⟩

/-- C8 as amended: in the local VAD gate, (i) while speaking, a silence
run opened by a first silent frame at time t0 whose further silent frames
all fall within the 0.3 s hysteresis window does not end the utterance —
the gate keeps speaking, keeps buffering the frames, and hands nothing
off; (ii) a silent frame arriving strictly more than 0.3 s after the
silence run started ends the utterance and clears the utterance buffer,
and hands the accumulated frame buffer off for sending exactly when no
previous utterance is still being processed — when is_processing is true
the buffer is discarded without hand-off; (iii) from silence, the
transition to speaking happens immediately on the first non-silent frame,
which is buffered at once. -/
theorem vad_gate_hysteresis_amended :
    (∀ (s : VadState) (d0 : List Int) (t0 : ℚ)
        (rest : List (List Int × ℚ)),
      s.is_speaking = true → s.silence_start = none →
      is_silent d0 = true →
      (∀ f ∈ rest, is_silent f.1 = true ∧ f.2 - t0 ≤ silenceDuration) →
      (vadRun s ((d0, t0) :: rest)).is_speaking = true ∧
      (vadRun s ((d0, t0) :: rest)).audio_buffer =
        s.audio_buffer ++ (d0 :: rest.map Prod.fst) ∧
      (vadRun s ((d0, t0) :: rest)).handed_off = s.handed_off) ∧
    (∀ (s : VadState) (d : List Int) (t t0 : ℚ),
      s.is_speaking = true → s.silence_start = some t0 →
      is_silent d = true → silenceDuration < t - t0 →
      vadStep s d t =
        { s with is_speaking := false
                 is_user_speaking := false
                 is_processing := true
                 handed_off :=
                   if s.is_processing then s.handed_off
                   else s.handed_off ++ [s.audio_buffer]
                 audio_buffer := []
                 silence_start := none }) ∧
    (∀ (s : VadState) (d : List Int) (t : ℚ),
      s.is_speaking = false → is_silent d = false →
      vadStep s d t =
        { s with silence_start := none
                 is_speaking := true
                 is_user_speaking := true
                 audio_buffer := s.audio_buffer ++ [d] }) := by
  refine ⟨?_, ?_, ?_⟩
  · intro s d0 t0 rest h1 h2 hsil hall
    have hstep : vadStep s d0 t0 =
        { s with silence_start := some t0
                 audio_buffer := s.audio_buffer ++ [d0] } := by
      simp [vadStep, hsil, h1, h2]
    rw [vadRun, hstep]
    obtain ⟨a, _, c, d⟩ := vad_short_silence_run_spec t0 rest
      { s with silence_start := some t0
               audio_buffer := s.audio_buffer ++ [d0] } h1 rfl hall
    refine ⟨a, ?_, d⟩
    rw [c]
    simp
  · intro s d t t0 h1 h2 hsil hlong
    simp [vadStep, hsil, h1, h2, hlong]
  · intro s d t h1 hsil
    simp [vadStep, hsil, h1]

theorem vad_gate_hysteresis_amended_witness :
    ((vadRun c8State (([0], 10) :: [([0], 10 + 1/4)])).is_speaking = true ∧
     (vadRun c8State (([0], 10) :: [([0], 10 + 1/4)])).audio_buffer =
       c8State.audio_buffer ++ ([0] :: [([0], 10 + 1/4)].map Prod.fst) ∧
     (vadRun c8State (([0], 10) :: [([0], 10 + 1/4)])).handed_off =
       c8State.handed_off) ∧
    (vadStep c8SilenceState [0] (20 + 31/100) =
      { c8SilenceState with
          is_speaking := false
          is_user_speaking := false
          is_processing := true
          handed_off := c8SilenceState.handed_off ++
            [c8SilenceState.audio_buffer]
          audio_buffer := []
          silence_start := none }) ∧
    (vadStep vadInitial [250] 5 =
      { vadInitial with
          silence_start := none
          is_speaking := true
          is_user_speaking := true
          audio_buffer := vadInitial.audio_buffer ++ [[250]] }) :=
  ⟨vad_gate_hysteresis_amended.1 c8State [0] 10 [([0], 10 + 1/4)] rfl rfl rfl
      (by intro f hf
          simp only [List.mem_singleton] at hf
          subst hf
          exact ⟨rfl, by norm_num [silenceDuration]⟩),
   vad_gate_hysteresis_amended.2.1 c8SilenceState [0] (20 + 31/100) 20
      rfl rfl rfl (by norm_num [silenceDuration]),
   vad_gate_hysteresis_amended.2.2 vadInitial [250] 5 rfl rfl⟩
